import Mathlib

/-!
Verification of the `cosine-similarity-aio` command-line program
(`src/app.py`) against its natural-language specification.

The program is a linear pipeline: parse CLI arguments, resolve a query
string and a comparison text (with fallbacks), hand the two strings to an
external sentence-embedding library, and print a cosine-similarity score
together with a five-bucket interpretation label.

Shallow embedding choices:
  * Python floats are modelled as rationals (`ℚ`); all comparisons the
    program performs (`> 0.8`, `> 0.6`, ...) agree between the two models
    at every value appearing in the claims.
  * The external effects of `main` (file reads, the GUI file dialog,
    interactive `input`, `sys.stdin`, and the sentence-transformers call)
    are provided through an explicit environment record `Env`; `main`
    becomes a pure function `Args → Env → RunResult` returning the
    termination status and the trace of printed lines.
  * `sys.exit(n)` is `Termination.exit n`; a Python exception that no
    handler catches is `Termination.uncaught`; normal fall-through out of
    `main` after printing the interpretation is `Termination.completed`.
  * The `{similarity:.4f}` formatting of the score line is abstracted:
    the printed score line carries the rational score via `toString`
    (no claim depends on the 4-decimal rendering).
-/

/-- Python truthiness of an `Optional[str]` value: `None` and the empty
string are falsy, every other string is truthy. -/
def pyTruthy : Option String → Bool
  | none => false
  | some s => !(s == "")

/-- The characters stripped by Python's `str.strip()` with no argument:
exactly those for which `str.isspace()` holds, i.e. all Unicode
whitespace — U+0009..U+000D, U+001C..U+001F, space, U+0085, U+00A0,
U+1680, U+2000..U+200A, U+2028, U+2029, U+202F, U+205F and U+3000. -/
def isPySpace (c : Char) : Bool :=
  (0x09 ≤ c.toNat && c.toNat ≤ 0x0d) || c.toNat == 0x20 ||
  (0x1c ≤ c.toNat && c.toNat ≤ 0x1f) || c.toNat == 0x85 || c.toNat == 0xa0 ||
  c.toNat == 0x1680 || (0x2000 ≤ c.toNat && c.toNat ≤ 0x200a) ||
  c.toNat == 0x2028 || c.toNat == 0x2029 || c.toNat == 0x202f ||
  c.toNat == 0x205f || c.toNat == 0x3000

/-- Python `str.strip()`: remove leading and trailing whitespace. -/
def pyStrip (s : String) : String :=
  String.mk (((s.data.dropWhile isPySpace).reverse.dropWhile isPySpace).reverse)

/-- Python `str.lower()` restricted to ASCII (the program only compares
the lowered answer against the ASCII string `"y"`). -/
def pyLower (s : String) : String :=
  String.mk (s.data.map Char.toLower)

/-- The five interpretation labels printed by `main`
(src/app.py lines 113-122). -/
def veryHighLabel : String := "Very high similarity"
def highLabel : String := "High similarity"
def moderateLabel : String := "Moderate similarity"
def lowLabel : String := "Low similarity"
def veryLowLabel : String := "Very low similarity"

/-- The interpretation cascade of `main` (src/app.py lines 113-122):
`if similarity > 0.8: ... elif similarity > 0.6: ... elif similarity > 0.4:
... elif similarity > 0.2: ... else: ...`. -/
def interpret (similarity : ℚ) : String :=
  if similarity > 8/10 then veryHighLabel
  else if similarity > 6/10 then highLabel
  else if similarity > 4/10 then moderateLabel
  else if similarity > 2/10 then lowLabel
  else veryLowLabel

/-- Result of opening and reading a file path: the content on success,
Python's `FileNotFoundError`, or any other `OSError` (permission denied,
path is a directory, ...), which `main` does not catch. -/
inductive FileResult where
  | ok (content : String)
  | notFound
  | ioError (msg : String)
deriving DecidableEq, Repr

/-- The parsed command-line arguments (src/app.py lines 60-66).
`argparse` yields `None` for an absent `--query`/`--text_file`/`--text`
and `False` for an absent `--select_file`. -/
structure Args where
  query : Option String
  text_file : Option String
  text : Option String
  select_file : Bool
deriving DecidableEq, Repr

/-- The external world consumed by one run of `main`: the file system,
the interactive answers, the file-dialog outcome, and the result of the
sentence-transformers computation inside `calculate_cosine_similarity`
(`.ok score` when the library returns a score, `.error msg` when it
raises). -/
structure Env where
  fs : String → FileResult
  queryInput : String
  pickerText : String
  manualAnswer : String
  stdinText : String
  embedResult : Except String ℚ

/-- How one run of `main` ends. -/
inductive Termination where
  | exit (code : Nat)
  | completed (score : ℚ)
  | uncaught (msg : String)
deriving DecidableEq, Repr

/-- The observable outcome of one run of `main`: termination status,
whether the file dialog was opened, whether `calculate_cosine_similarity`
was called, the comparison text that survived resolution (if resolution
completed), and the printed lines in order. -/
structure RunResult where
  termination : Termination
  pickerOpened : Bool
  scorerCalled : Bool
  resolvedText : Option String
  output : List String
deriving DecidableEq, Repr

/-- `calculate_cosine_similarity` (src/app.py lines 9-33): the whole body
is wrapped in `try/except Exception`; a raised exception is caught,
`"Error during embedding calculation: ..."` is printed, and `0.0` is
returned.  The embedding-and-cosine computation itself is external and is
supplied as `embedResult`.  Returns the score and the printed lines. -/
def calculate_cosine_similarity (embedResult : Except String ℚ) :
    ℚ × List String :=
  match embedResult with
  | .ok s => (s, [])
  | .error e => (0, ["Error during embedding calculation: " ++ e])

/-- The tail of `main` after text resolution (src/app.py lines 104-122):
the whitespace-only check, the scorer call, the score line, and the
interpretation cascade. -/
def afterResolution (env : Env) (pickerOpened : Bool)
    (outputSoFar : List String) (text : String) : RunResult :=
  if pyStrip text == "" then
    { termination := .exit 1
      pickerOpened := pickerOpened
      scorerCalled := false
      resolvedText := some text
      output := outputSoFar ++ ["Error: No text provided."] }
  else
    let r := calculate_cosine_similarity env.embedResult
    { termination := .completed r.1
      pickerOpened := pickerOpened
      scorerCalled := true
      resolvedText := some text
      output := outputSoFar
        ++ ["Calculating similarity with sentence transformers (this might take a moment)..."]
        ++ r.2
        ++ ["Cosine Similarity between query and text: " ++ toString r.1,
            "Interpretation: " ++ interpret r.1] }

namespace App

/-- `main` (src/app.py lines 59-122) as a pure function of the parsed
arguments and the environment.

Query resolution (lines 69-71): `query = args.query; if not query:
query = input(...)` — no emptiness check afterwards.

Text resolution (lines 74-102): `if args.text_file:` reads the file,
catching only `FileNotFoundError` (exit 1); `elif args.text:` uses the
inline value; `elif args.select_file or not (args.text_file or args.text):`
opens the file dialog, and on an empty result asks whether to fall back to
manual stdin input (`'y'` after `.lower()`), exiting 0 when declined.

Then lines 104-122 via `afterResolution`. -/
def main (args : Args) (env : Env) : RunResult :=
  let query0 := args.query.getD ""
  let _query : String := if query0 == "" then env.queryInput else query0
  if pyTruthy args.text_file then
    match env.fs (args.text_file.getD "") with
    | .ok content => afterResolution env false [] content
    | .notFound =>
        { termination := .exit 1
          pickerOpened := false
          scorerCalled := false
          resolvedText := none
          output := ["Error: File '" ++ args.text_file.getD "" ++ "' not found."] }
    | .ioError e =>
        { termination := .uncaught e
          pickerOpened := false
          scorerCalled := false
          resolvedText := none
          output := [] }
  else if pyTruthy args.text then
    afterResolution env false [] (args.text.getD "")
  else if args.select_file || !(pyTruthy args.text_file || pyTruthy args.text) then
    let out0 := ["Opening file dialog to select a text file..."]
    let text1 := env.pickerText
    if !(text1 == "") then
      afterResolution env true out0 text1
    else
      let out1 := out0 ++ ["No file selected or file is empty."]
      if pyLower env.manualAnswer == "y" then
        let out2 := out1 ++ ["Please paste text below (Ctrl+D or Ctrl+Z to finish):"]
        afterResolution env true out2 env.stdinText
      else
        { termination := .exit 0
          pickerOpened := true
          scorerCalled := false
          resolvedText := none
          output := out1 }
  else
    afterResolution env false [] ""

end App

/-- A text-resolution channel, for stating the first-match-wins claim. -/
inductive Channel where
  | file
  | inline
  | picker
deriving DecidableEq, Repr

/-- The channel `main` actually takes, read off the branch structure of
src/app.py lines 75-102 (`none` would mean no branch fires, i.e. `text`
stays `""`). -/
def codeChannel (args : Args) : Option Channel :=
  if pyTruthy args.text_file then some .file
  else if pyTruthy args.text then some .inline
  else if args.select_file || !(pyTruthy args.text_file || pyTruthy args.text) then
    some .picker
  else none

/-- The channel as the specification describes it: "(a) explicit file
path; (b) explicit inline text flag; (c) explicit request for interactive
file-picker, or — if no source was specified at all — implicit fallback to
the file-picker".  "Given" is read as "supplied on the command line"
(`isSome`), with the inline flag additionally required non-empty as the
claim says. -/
def claimChannel (args : Args) : Option Channel :=
  if args.text_file.isSome then some .file
  else if (match args.text with | some t => !(t == "") | none => false) then
    some .inline
  else if args.select_file || (args.text_file == none && args.text == none) then
    some .picker
  else none

/-- `hay` contains `needle` as a contiguous substring. -/
def strContains (hay needle : String) : Prop :=
  ∃ a b : String, hay = a ++ needle ++ b

/-- A file system on which every open raises `FileNotFoundError`. -/
def fsEmpty : String → FileResult := fun _ => .notFound

/-- A file system on which every open raises an `OSError` other than
`FileNotFoundError` (e.g. `PermissionError`). -/
def fsBroken (msg : String) : String → FileResult := fun _ => .ioError msg

/-- A concrete environment for evaluating whole runs (the interactive
query answer is the empty string). -/
def mkEnv (fs : String → FileResult) (picker answer stdin : String)
    (er : Except String ℚ) : Env :=
  { fs := fs
    queryInput := ""
    pickerText := picker
    manualAnswer := answer
    stdinText := stdin
    embedResult := er }

/-! ## Helper lemmas about the branch structure of `main` -/

theorem pyTruthy_none : pyTruthy none = false := rfl

theorem pyTruthy_some_iff (s : String) : pyTruthy (some s) = true ↔ s ≠ "" := by
  simp [pyTruthy]

theorem interpret_zero : interpret 0 = veryLowLabel := by
  norm_num [interpret]

theorem afterResolution_stripEmpty (env : Env) (p : Bool) (out : List String)
    (t : String) (h : pyStrip t = "") :
    afterResolution env p out t =
      { termination := .exit 1
        pickerOpened := p
        scorerCalled := false
        resolvedText := some t
        output := out ++ ["Error: No text provided."] } := by
  simp [afterResolution, h]

theorem afterResolution_stripNe (env : Env) (p : Bool) (out : List String)
    (t : String) (h : ¬ pyStrip t = "") :
    afterResolution env p out t =
      { termination := .completed (calculate_cosine_similarity env.embedResult).1
        pickerOpened := p
        scorerCalled := true
        resolvedText := some t
        output := out
          ++ ["Calculating similarity with sentence transformers (this might take a moment)..."]
          ++ (calculate_cosine_similarity env.embedResult).2
          ++ ["Cosine Similarity between query and text: "
                ++ toString (calculate_cosine_similarity env.embedResult).1,
              "Interpretation: "
                ++ interpret (calculate_cosine_similarity env.embedResult).1] } := by
  simp [afterResolution, h]

theorem main_file_notFound (args : Args) (env : Env) (p : String)
    (hp : args.text_file = some p) (hne : p ≠ "")
    (hfs : env.fs p = .notFound) :
    App.main args env =
      { termination := .exit 1
        pickerOpened := false
        scorerCalled := false
        resolvedText := none
        output := ["Error: File '" ++ p ++ "' not found."] } := by
  simp [App.main, hp, pyTruthy, hne, hfs]

theorem main_file_ioError (args : Args) (env : Env) (p e : String)
    (hp : args.text_file = some p) (hne : p ≠ "")
    (hfs : env.fs p = .ioError e) :
    App.main args env =
      { termination := .uncaught e
        pickerOpened := false
        scorerCalled := false
        resolvedText := none
        output := [] } := by
  simp [App.main, hp, pyTruthy, hne, hfs]

theorem main_file_ok (args : Args) (env : Env) (p c : String)
    (hp : args.text_file = some p) (hne : p ≠ "")
    (hfs : env.fs p = .ok c) :
    App.main args env = afterResolution env false [] c := by
  simp [App.main, hp, pyTruthy, hne, hfs]

theorem main_inline (args : Args) (env : Env)
    (hf : pyTruthy args.text_file = false) (ht : pyTruthy args.text = true) :
    App.main args env = afterResolution env false [] (args.text.getD "") := by
  simp [App.main, hf, ht]

theorem main_picker_nonempty (args : Args) (env : Env)
    (hf : pyTruthy args.text_file = false) (ht : pyTruthy args.text = false)
    (hp : ¬ env.pickerText = "") :
    App.main args env =
      afterResolution env true ["Opening file dialog to select a text file..."]
        env.pickerText := by
  simp [App.main, hf, ht, hp]

theorem main_picker_empty_accept (args : Args) (env : Env)
    (hf : pyTruthy args.text_file = false) (ht : pyTruthy args.text = false)
    (hp : env.pickerText = "") (hy : pyLower env.manualAnswer = "y") :
    App.main args env =
      afterResolution env true
        ["Opening file dialog to select a text file...",
         "No file selected or file is empty.",
         "Please paste text below (Ctrl+D or Ctrl+Z to finish):"]
        env.stdinText := by
  simp [App.main, hf, ht, hp, hy]

theorem main_picker_empty_decline (args : Args) (env : Env)
    (hf : pyTruthy args.text_file = false) (ht : pyTruthy args.text = false)
    (hp : env.pickerText = "") (hn : ¬ pyLower env.manualAnswer = "y") :
    App.main args env =
      { termination := .exit 0
        pickerOpened := true
        scorerCalled := false
        resolvedText := none
        output := ["Opening file dialog to select a text file...",
                   "No file selected or file is empty."] } := by
  simp [App.main, hf, ht, hp, hn]

theorem main_shape (args : Args) (env : Env) :
    (∃ p out t, App.main args env = afterResolution env p out t) ∨
    ((App.main args env).resolvedText = none ∧
      (App.main args env).scorerCalled = false) := by
  by_cases hf : pyTruthy args.text_file = true
  · obtain ⟨p, hp⟩ : ∃ p, args.text_file = some p := by
      cases h : args.text_file with
      | none => rw [h] at hf; simp [pyTruthy] at hf
      | some p => exact ⟨p, rfl⟩
    have hne : p ≠ "" := by
      rw [hp] at hf
      exact (pyTruthy_some_iff p).1 hf
    cases hfs : env.fs p with
    | ok c => exact Or.inl ⟨false, [], c, main_file_ok args env p c hp hne hfs⟩
    | notFound => right; rw [main_file_notFound args env p hp hne hfs]; exact ⟨rfl, rfl⟩
    | ioError e => right; rw [main_file_ioError args env p e hp hne hfs]; exact ⟨rfl, rfl⟩
  · rw [Bool.not_eq_true] at hf
    by_cases ht : pyTruthy args.text = true
    · exact Or.inl ⟨false, [], args.text.getD "", main_inline args env hf ht⟩
    · rw [Bool.not_eq_true] at ht
      by_cases hp : env.pickerText = ""
      · by_cases hy : pyLower env.manualAnswer = "y"
        · exact Or.inl ⟨true, _, env.stdinText,
            main_picker_empty_accept args env hf ht hp hy⟩
        · right
          rw [main_picker_empty_decline args env hf ht hp hy]
          exact ⟨rfl, rfl⟩
      · exact Or.inl ⟨true, _, env.pickerText,
          main_picker_nonempty args env hf ht hp⟩

/-- Claim C1: for every score `s`, the interpretation printed by `main` is a
total function of `s` yielding exactly one of the five labels, selected by
strict lower-bound thresholds at 0.8, 0.6, 0.4, 0.2. -/
theorem claim_C1_classification (s : ℚ) :
    (interpret s = veryHighLabel ∨ interpret s = highLabel ∨
      interpret s = moderateLabel ∨ interpret s = lowLabel ∨
      interpret s = veryLowLabel) ∧
    (interpret s = veryHighLabel ↔ s > 8/10) ∧
    (interpret s = highLabel ↔ s ≤ 8/10 ∧ s > 6/10) ∧
    (interpret s = moderateLabel ↔ s ≤ 6/10 ∧ s > 4/10) ∧
    (interpret s = lowLabel ↔ s ≤ 4/10 ∧ s > 2/10) ∧
    (interpret s = veryLowLabel ↔ s ≤ 2/10) := by
  unfold interpret
  split_ifs with h1 h2 h3 h4 <;>
    refine ⟨by first
        | exact Or.inl rfl
        | exact Or.inr (Or.inl rfl)
        | exact Or.inr (Or.inr (Or.inl rfl))
        | exact Or.inr (Or.inr (Or.inr (Or.inl rfl)))
        | exact Or.inr (Or.inr (Or.inr (Or.inr rfl))),
      ?_, ?_, ?_, ?_, ?_⟩ <;>
    constructor <;>
    intro hh <;>
    first
      | rfl
      | exact absurd hh (by decide)
      | constructor <;> linarith
      | linarith

/-- Claim C2 fails on the code: at the boundary, the score 0.8 is not
greater than 0.8 but is greater than 0.6, so `main` prints
"High similarity", not "Moderate similarity". -/
theorem claim_C2_counterexample :
    interpret (8/10 : ℚ) = highLabel ∧ interpret (8/10 : ℚ) ≠ moderateLabel := by
  have h : interpret (8/10 : ℚ) = highLabel := by norm_num [interpret]
  refine ⟨h, ?_⟩
  rw [h]
  decide

/-- Claim C2 amended: classification of the exact score 0.8 yields
"High similarity" and classification of 0.8001 yields
"Very high similarity". -/
theorem claim_C2_boundary :
    interpret (8/10 : ℚ) = highLabel ∧
    interpret (8001/10000 : ℚ) = veryHighLabel := by
  constructor <;> norm_num [interpret]

/-- Claim C3: whenever the embedding computation fails, the failure is
caught inside `calculate_cosine_similarity`, a message is printed, the
scorer returns exactly 0.0, and the run completes with the interpretation
"Very low similarity" printed. -/
theorem claim_C3_fail_soft (args : Args) (env : Env) (e : String)
    (he : env.embedResult = .error e)
    (hs : (App.main args env).scorerCalled = true) :
    calculate_cosine_similarity env.embedResult =
      (0, ["Error during embedding calculation: " ++ e]) ∧
    (App.main args env).termination = .completed 0 ∧
    ("Error during embedding calculation: " ++ e) ∈ (App.main args env).output ∧
    ("Interpretation: " ++ veryLowLabel) ∈ (App.main args env).output := by
  have hcalc : calculate_cosine_similarity env.embedResult =
      (0, ["Error during embedding calculation: " ++ e]) := by
    rw [he]
    rfl
  rcases main_shape args env with ⟨p, out, t, hmain⟩ | ⟨_, hsc⟩
  · rw [hmain] at hs ⊢
    by_cases hstrip : pyStrip t = ""
    · rw [afterResolution_stripEmpty env p out t hstrip] at hs
      simp at hs
    · rw [afterResolution_stripNe env p out t hstrip]
      rw [afterResolution_stripNe env p out t hstrip] at hs
      refine ⟨hcalc, ?_, ?_, ?_⟩
      · simp [hcalc]
      · simp [hcalc]
      · simp [hcalc, interpret_zero]
  · rw [hs] at hsc
    exact absurd hsc (by decide)

/-- Witness for C3 at a concrete input: `--text "hello"` with a failing
model run returns score 0 and prints "Interpretation: Very low similarity". -/
theorem claim_C3_witness :
    (App.main ⟨some "q", none, some "hello", false⟩
        (mkEnv fsEmpty "" "" "" (.error "model unavailable"))).scorerCalled = true ∧
    (App.main ⟨some "q", none, some "hello", false⟩
        (mkEnv fsEmpty "" "" "" (.error "model unavailable"))).termination = .completed 0 ∧
    ("Interpretation: " ++ veryLowLabel) ∈
      (App.main ⟨some "q", none, some "hello", false⟩
        (mkEnv fsEmpty "" "" "" (.error "model unavailable"))).output := by
  have h := claim_C3_fail_soft ⟨some "q", none, some "hello", false⟩
      (mkEnv fsEmpty "" "" "" (.error "model unavailable")) "model unavailable"
      rfl (by decide)
  exact ⟨by decide, h.2.1, h.2.2.2⟩

theorem afterResolution_pickerOpened (env : Env) (p : Bool) (out : List String)
    (t : String) : (afterResolution env p out t).pickerOpened = p := by
  unfold afterResolution
  split <;> rfl

theorem afterResolution_resolvedText (env : Env) (p : Bool) (out : List String)
    (t : String) : (afterResolution env p out t).resolvedText = some t := by
  unfold afterResolution
  split <;> rfl

/-- Claim C4 fails on the code: with no `--query` and an empty interactive
answer, the program does not exit; it goes on to compute the similarity. -/
theorem claim_C4_counterexample :
    (App.main ⟨none, none, some "hello", false⟩
        (mkEnv fsEmpty "" "" "" (.ok 1))).scorerCalled = true ∧
    (App.main ⟨none, none, some "hello", false⟩
        (mkEnv fsEmpty "" "" "" (.ok 1))).termination ≠ .exit 1 := by
  decide

/-- Claim C4 amended: `main` never checks the query for emptiness; with an
empty query after both fallbacks it proceeds to text resolution and, when
the text resolves non-whitespace, calls the scorer and completes without
exiting. -/
theorem claim_C4_no_query_check (args : Args) (env : Env) (t : String)
    (_hq : args.query = none) (_hqi : env.queryInput = "")
    (hf : args.text_file = none) (ht : args.text = some t)
    (hst : ¬ pyStrip t = "") :
    (App.main args env).scorerCalled = true ∧
    ∀ c, (App.main args env).termination ≠ .exit c := by
  have htne : t ≠ "" := by
    intro h0
    exact hst (by rw [h0]; rfl)
  have htr : pyTruthy args.text = true := by
    rw [ht]
    exact (pyTruthy_some_iff t).2 htne
  rw [main_inline args env (by rw [hf]; rfl) htr, ht, Option.getD_some]
  rw [afterResolution_stripNe env false [] t hst]
  exact ⟨rfl, fun c h => by cases h⟩

/-- Witness for the amended C4 at a concrete input. -/
theorem claim_C4_witness :
    (App.main ⟨none, none, some "hello", false⟩
        (mkEnv fsEmpty "" "" "" (.ok 1))).scorerCalled = true ∧
    ∀ c, (App.main ⟨none, none, some "hello", false⟩
        (mkEnv fsEmpty "" "" "" (.ok 1))).termination ≠ .exit c :=
  claim_C4_no_query_check ⟨none, none, some "hello", false⟩
    (mkEnv fsEmpty "" "" "" (.ok 1)) "hello" rfl rfl rfl rfl (by decide)

/-- Claim C5 fails on the code: `--text ""` is falsy, so the program falls
through to the file dialog; with the picker cancelled and manual entry
declined it exits 0, not 1. -/
theorem claim_C5_counterexample :
    (App.main ⟨some "q", none, some "", false⟩
        (mkEnv fsEmpty "" "n" "" (.ok 1))).pickerOpened = true ∧
    (App.main ⟨some "q", none, some "", false⟩
        (mkEnv fsEmpty "" "n" "" (.ok 1))).termination = .exit 0 := by
  decide

/-- Claim C5 amended: with `--text ""` and no `--text_file`, the empty
inline text is skipped and the file dialog opens; the run exits 1 with
"Error: No text provided." exactly when the text the fallback chain
resolves (the picker's content, or — picker empty, manual entry
accepted — the stdin text) is empty or whitespace-only; declining manual
entry exits 0. -/
theorem claim_C5_empty_text_falls_through (args : Args) (env : Env)
    (ht : args.text = some "") (hf : args.text_file = none) :
    (App.main args env).pickerOpened = true ∧
    (env.pickerText = "" → pyLower env.manualAnswer = "y" →
      pyStrip env.stdinText = "" →
      (App.main args env).termination = .exit 1 ∧
      "Error: No text provided." ∈ (App.main args env).output) ∧
    (env.pickerText = "" → ¬ pyLower env.manualAnswer = "y" →
      (App.main args env).termination = .exit 0) ∧
    ((App.main args env).termination = .exit 1 ↔
      ∃ t, (App.main args env).resolvedText = some t ∧ pyStrip t = "") := by
  have hf' : pyTruthy args.text_file = false := by rw [hf]; rfl
  have ht' : pyTruthy args.text = false := by rw [ht]; rfl
  refine ⟨?_, ?_, ?_, ?_⟩
  · by_cases hp : env.pickerText = ""
    · by_cases hy : pyLower env.manualAnswer = "y"
      · rw [main_picker_empty_accept args env hf' ht' hp hy]
        exact afterResolution_pickerOpened ..
      · rw [main_picker_empty_decline args env hf' ht' hp hy]
    · rw [main_picker_nonempty args env hf' ht' hp]
      exact afterResolution_pickerOpened ..
  · intro hp hy hw
    rw [main_picker_empty_accept args env hf' ht' hp hy,
      afterResolution_stripEmpty env true _ _ hw]
    exact ⟨rfl, by simp⟩
  · intro hp hn
    rw [main_picker_empty_decline args env hf' ht' hp hn]
  · by_cases hp : env.pickerText = ""
    · by_cases hy : pyLower env.manualAnswer = "y"
      · rw [main_picker_empty_accept args env hf' ht' hp hy]
        by_cases hw : pyStrip env.stdinText = ""
        · rw [afterResolution_stripEmpty env true _ _ hw]
          exact ⟨fun _ => ⟨env.stdinText, rfl, hw⟩, fun _ => rfl⟩
        · rw [afterResolution_stripNe env true _ _ hw]
          constructor
          · intro h
            cases h
          · rintro ⟨t, ht2, hw2⟩
            rw [Option.some_inj] at ht2
            subst ht2
            exact absurd hw2 hw
      · rw [main_picker_empty_decline args env hf' ht' hp hy]
        constructor
        · intro h
          exact absurd h (by decide)
        · rintro ⟨t, ht2, _⟩
          cases ht2
    · rw [main_picker_nonempty args env hf' ht' hp]
      by_cases hw : pyStrip env.pickerText = ""
      · rw [afterResolution_stripEmpty env true _ _ hw]
        exact ⟨fun _ => ⟨env.pickerText, rfl, hw⟩, fun _ => rfl⟩
      · rw [afterResolution_stripNe env true _ _ hw]
        constructor
        · intro h
          cases h
        · rintro ⟨t, ht2, hw2⟩
          rw [Option.some_inj] at ht2
          subst ht2
          exact absurd hw2 hw

/-- Witness for the amended C5 at a concrete input. -/
theorem claim_C5_witness :
    (App.main ⟨some "q", none, some "", false⟩
        (mkEnv fsEmpty "" "y" "" (.ok 1))).termination = .exit 1 ∧
    "Error: No text provided." ∈
      (App.main ⟨some "q", none, some "", false⟩
        (mkEnv fsEmpty "" "y" "" (.ok 1))).output :=
  (claim_C5_empty_text_falls_through ⟨some "q", none, some "", false⟩
    (mkEnv fsEmpty "" "y" "" (.ok 1)) rfl rfl).2.1 rfl (by decide) rfl

/-- Claim C6: a `--text_file` path whose open raises `FileNotFoundError`
makes the program exit 1 and print an error containing the path, without
opening the dialog, reading any other source, or calling the scorer. -/
theorem claim_C6_missing_file (args : Args) (env : Env) (p : String)
    (hp : args.text_file = some p) (hne : p ≠ "")
    (hfs : env.fs p = .notFound) :
    (App.main args env).termination = .exit 1 ∧
    ("Error: File '" ++ p ++ "' not found.") ∈ (App.main args env).output ∧
    strContains ("Error: File '" ++ p ++ "' not found.") p ∧
    (App.main args env).pickerOpened = false ∧
    (App.main args env).scorerCalled = false ∧
    (App.main args env).resolvedText = none := by
  rw [main_file_notFound args env p hp hne hfs]
  exact ⟨rfl, by simp, ⟨"Error: File '", "' not found.", rfl⟩, rfl, rfl, rfl⟩

/-- Witness for C6 at a concrete input. -/
theorem claim_C6_witness :
    (App.main ⟨some "q", some "missing.txt", none, false⟩
        (mkEnv fsEmpty "" "" "" (.ok 1))).termination = .exit 1 ∧
    ("Error: File '" ++ "missing.txt" ++ "' not found.") ∈
      (App.main ⟨some "q", some "missing.txt", none, false⟩
        (mkEnv fsEmpty "" "" "" (.ok 1))).output ∧
    strContains ("Error: File '" ++ "missing.txt" ++ "' not found.") "missing.txt" ∧
    (App.main ⟨some "q", some "missing.txt", none, false⟩
        (mkEnv fsEmpty "" "" "" (.ok 1))).pickerOpened = false ∧
    (App.main ⟨some "q", some "missing.txt", none, false⟩
        (mkEnv fsEmpty "" "" "" (.ok 1))).scorerCalled = false ∧
    (App.main ⟨some "q", some "missing.txt", none, false⟩
        (mkEnv fsEmpty "" "" "" (.ok 1))).resolvedText = none :=
  claim_C6_missing_file ⟨some "q", some "missing.txt", none, false⟩
    (mkEnv fsEmpty "" "" "" (.ok 1)) "missing.txt" rfl (by decide) rfl

/-- Claim C7 fails on the code at `--text ""`: per the claim no channel
matches (a text source was specified, it is empty, and `--select_file` was
not given), yet the code opens the file dialog, because the dialog branch
condition `args.select_file or not (args.text_file or args.text)` is true
whenever both flags are falsy. -/
theorem claim_C7_counterexample :
    codeChannel ⟨some "q", none, some "", false⟩ = some Channel.picker ∧
    claimChannel ⟨some "q", none, some "", false⟩ = none ∧
    (App.main ⟨some "q", none, some "", false⟩
        (mkEnv fsEmpty "" "n" "" (.ok 1))).pickerOpened = true := by
  decide

/-- Claim C7 amended: resolution is first match wins by Python truthiness
(non-empty value): a non-empty `--text_file` wins and the dialog never
opens; else a non-empty `--text` wins and the dialog never opens; else the
dialog always opens (at that point `select_file or not (text_file or
text)` is necessarily true).  The claim's channel description agrees with
the code whenever neither flag is supplied as the empty string. -/
theorem claim_C7_resolution_order (args : Args) (env : Env) :
    (pyTruthy args.text_file = true →
      codeChannel args = some Channel.file ∧
      (App.main args env).pickerOpened = false ∧
      (∀ c, env.fs (args.text_file.getD "") = .ok c →
        (App.main args env).resolvedText = some c)) ∧
    (pyTruthy args.text_file = false → pyTruthy args.text = true →
      codeChannel args = some Channel.inline ∧
      (App.main args env).pickerOpened = false ∧
      (App.main args env).resolvedText = some (args.text.getD "")) ∧
    (pyTruthy args.text_file = false → pyTruthy args.text = false →
      codeChannel args = some Channel.picker ∧
      (App.main args env).pickerOpened = true) ∧
    (args.text_file ≠ some "" → args.text ≠ some "" →
      codeChannel args = claimChannel args) := by
  refine ⟨?_, ?_, ?_, ?_⟩
  · intro hf
    obtain ⟨p, hp⟩ : ∃ p, args.text_file = some p := by
      cases h : args.text_file with
      | none => rw [h] at hf; simp [pyTruthy] at hf
      | some p => exact ⟨p, rfl⟩
    have hne : p ≠ "" := by
      rw [hp] at hf
      exact (pyTruthy_some_iff p).1 hf
    refine ⟨by simp [codeChannel, hf], ?_, ?_⟩
    · cases hfs : env.fs p with
      | ok c =>
          rw [main_file_ok args env p c hp hne hfs]
          exact afterResolution_pickerOpened ..
      | notFound => rw [main_file_notFound args env p hp hne hfs]
      | ioError e => rw [main_file_ioError args env p e hp hne hfs]
    · intro c hc
      rw [hp] at hc
      rw [main_file_ok args env p c hp hne (by simpa using hc)]
      exact afterResolution_resolvedText ..
  · intro hf ht
    rw [main_inline args env hf ht]
    exact ⟨by simp [codeChannel, hf, ht], afterResolution_pickerOpened ..,
      afterResolution_resolvedText ..⟩
  · intro hf ht
    refine ⟨by simp [codeChannel, hf, ht], ?_⟩
    by_cases hp : env.pickerText = ""
    · by_cases hy : pyLower env.manualAnswer = "y"
      · rw [main_picker_empty_accept args env hf ht hp hy]
        exact afterResolution_pickerOpened ..
      · rw [main_picker_empty_decline args env hf ht hp hy]
    · rw [main_picker_nonempty args env hf ht hp]
      exact afterResolution_pickerOpened ..
  · intro h4a h4b
    rcases hTF : args.text_file with _ | p
    · rcases hT : args.text with _ | t
      · simp [codeChannel, claimChannel, pyTruthy, hTF, hT]
      · have htne : t ≠ "" := by
          intro h0
          exact h4b (by rw [hT, h0])
        simp [codeChannel, claimChannel, pyTruthy, hTF, hT, htne]
    · have hpne : p ≠ "" := by
        intro h0
        exact h4a (by rw [hTF, h0])
      simp [codeChannel, claimChannel, pyTruthy, hTF, hpne]

/-- Claim C8: whenever resolution completes with a whitespace-only text,
the program exits 1 with "Error: No text provided." and never calls the
scorer; conversely the scorer is only ever called on text whose strip is
non-empty. -/
theorem claim_C8_whitespace_fatal (args : Args) (env : Env) :
    (∀ t, (App.main args env).resolvedText = some t → pyStrip t = "" →
      (App.main args env).termination = .exit 1 ∧
      "Error: No text provided." ∈ (App.main args env).output ∧
      (App.main args env).scorerCalled = false) ∧
    ((App.main args env).scorerCalled = true →
      ∃ t, (App.main args env).resolvedText = some t ∧ ¬ pyStrip t = "") := by
  rcases main_shape args env with ⟨p, out, t, hmain⟩ | ⟨hrt, hsc⟩
  · rw [hmain]
    by_cases hstrip : pyStrip t = ""
    · rw [afterResolution_stripEmpty env p out t hstrip]
      constructor
      · intro t' ht' _
        exact ⟨rfl, by simp, rfl⟩
      · intro h
        cases h
    · rw [afterResolution_stripNe env p out t hstrip]
      constructor
      · intro t' ht' hw
        rw [Option.some_inj] at ht'
        subst ht'
        exact absurd hw hstrip
      · intro _
        exact ⟨t, rfl, hstrip⟩
  · constructor
    · intro t' ht'
      rw [hrt] at ht'
      cases ht'
    · intro h
      rw [hsc] at h
      cases h

/-- Claim C9: when the dialog branch is reached, the picker yields no
text, and the user's answer does not lower to "y", the program exits 0
without calling the scorer. -/
theorem claim_C9_decline_exit0 (args : Args) (env : Env)
    (hf : pyTruthy args.text_file = false) (ht : pyTruthy args.text = false)
    (hp : env.pickerText = "") (hn : ¬ pyLower env.manualAnswer = "y") :
    (App.main args env).termination = .exit 0 ∧
    (App.main args env).scorerCalled = false := by
  rw [main_picker_empty_decline args env hf ht hp hn]
  exact ⟨rfl, rfl⟩

/-- Witness for C9 at a concrete input: `--select_file` with the dialog
cancelled and the answer "no". -/
theorem claim_C9_witness :
    (App.main ⟨some "q", none, none, true⟩
        (mkEnv fsEmpty "" "no" "" (.ok 1))).termination = .exit 0 ∧
    (App.main ⟨some "q", none, none, true⟩
        (mkEnv fsEmpty "" "no" "" (.ok 1))).scorerCalled = false :=
  claim_C9_decline_exit0 ⟨some "q", none, none, true⟩
    (mkEnv fsEmpty "" "no" "" (.ok 1)) rfl rfl rfl (by decide)

/-- Claim C10: only `FileNotFoundError` is handled when reading
`--text_file`; any other I/O failure propagates out of `main` uncaught,
with nothing printed and no exit-1 error path taken. -/
theorem claim_C10_io_error_uncaught (args : Args) (env : Env) (p e : String)
    (hp : args.text_file = some p) (hne : p ≠ "")
    (hfs : env.fs p = .ioError e) :
    (App.main args env).termination = .uncaught e ∧
    (∀ c, (App.main args env).termination ≠ .exit c) ∧
    (App.main args env).output = [] ∧
    (App.main args env).scorerCalled = false := by
  rw [main_file_ioError args env p e hp hne hfs]
  refine ⟨rfl, ?_, rfl, rfl⟩
  intro c h
  cases h

/-- Witness for C10 at a concrete input: a permission error on the path. -/
theorem claim_C10_witness :
    (App.main ⟨some "q", some "secret.txt", none, false⟩
        (mkEnv (fsBroken "Permission denied") "" "" "" (.ok 1))).termination =
      .uncaught "Permission denied" ∧
    (∀ c, (App.main ⟨some "q", some "secret.txt", none, false⟩
        (mkEnv (fsBroken "Permission denied") "" "" "" (.ok 1))).termination ≠
      .exit c) ∧
    (App.main ⟨some "q", some "secret.txt", none, false⟩
        (mkEnv (fsBroken "Permission denied") "" "" "" (.ok 1))).output = [] ∧
    (App.main ⟨some "q", some "secret.txt", none, false⟩
        (mkEnv (fsBroken "Permission denied") "" "" "" (.ok 1))).scorerCalled = false :=
  claim_C10_io_error_uncaught ⟨some "q", some "secret.txt", none, false⟩
    (mkEnv (fsBroken "Permission denied") "" "" "" (.ok 1))
    "secret.txt" "Permission denied" rfl (by decide) rfl
